import Mathlib

/-!
Verification development for the kBB-8 repository (github.com/fabriziopandini/kBB-8).

The repository bootstraps a minimal ephemeral control plane (etcd + kube-apiserver)
plus a set of concurrently started provider controller processes. This file gives a
shallow embedding of the parts of the code relevant to the claims under review:

* `pkg/kubeconfig` : credentials (kubeconfig) create/merge/remove over keyed maps;
* `pkg/controlplane` : the `ControlPlane.Stop` teardown sequence and its nil-guarding;
* `pkg/provider` : manifest reading/adaptation (`readAndAdaptManifestObjects`) and the
  apply loop of `createManifestObjects`;
* `kBB-8.go` (main) : the unsynchronized accumulation of provider names across
  concurrently running goroutines.

Go maps are embedded as association lists `List (String × v)` (a Go map never holds a
duplicate key; where a theorem needs that invariant it carries an explicit `Nodup`
hypothesis on the key list). Go nil pointers are embedded as `Option`; a nil-pointer
dereference is embedded as a distinguished "panicked" outcome. File input/output and
cryptographic certificate generation are external effects: certificate and key bytes
appear as parameters (`List Nat`), and file writes are reported as booleans.
-/

/-! ## Credentials model: pkg/kubeconfig

Translation of the `clientcmdapi.Config` shape actually used by `pkg/kubeconfig`
(kubeconfig.go): three keyed maps plus the current-context scalar.
-/

/-- A cluster entry of the credentials file: endpoint URL plus CA bytes
(clientcmdapi.Cluster restricted to the fields the code writes). -/
structure Cluster where
  server : String
  certificateAuthorityData : List Nat
deriving DecidableEq

/-- A user entry of the credentials file: client certificate and key bytes
(clientcmdapi.AuthInfo restricted to the fields the code writes). -/
structure AuthInfo where
  clientCertificateData : List Nat
  clientKeyData : List Nat
deriving DecidableEq

/-- A context entry binding a cluster key and a user key (clientcmdapi.Context). -/
structure KubeContext where
  cluster : String
  authInfo : String
deriving DecidableEq

/-- The credentials file content (clientcmdapi.Config): three keyed maps plus the
current-context pointer. Go maps are embedded as association lists. -/
structure Config where
  clusters : List (String × Cluster)
  authInfos : List (String × AuthInfo)
  contexts : List (String × KubeContext)
  currentContext : String
deriving DecidableEq

/-- Translation of `clusterKey` (kubeconfig.go): the derived cluster map key. -/
def clusterKey (clusterName : String) : String :=
  "kBB-8-" ++ clusterName

/-- Translation of `contextKey` (kubeconfig.go): the derived context map key. -/
def contextKey (clusterName : String) : String :=
  "kBB-8-" ++ clusterName

/-- Translation of `userKey` (kubeconfig.go): the derived user map key. -/
def userKey (clusterName : String) : String :=
  "kBB-8-" ++ clusterName ++ "-admin"

/-- Translation of one per-map loop of `merge` (kubeconfig.go): walk the existing
entries, overwrite the value when the key is already present, and append the pair
otherwise (`shouldAppend`). -/
def upsertEntry {v : Type} (existing : List (String × v)) (newName : String) (newVal : v) :
    List (String × v) :=
  if existing.any (fun p => p.1 == newName) then
    existing.map (fun p => if p.1 == newName then (newName, newVal) else p)
  else
    existing ++ [(newName, newVal)]

/-- Translation of `merge` (kubeconfig.go): upsert every entry of the new config's
three maps into the existing config, then unconditionally overwrite the existing
config's current context with the new one. -/
def mergeConfig (nw existing : Config) : Config :=
  { clusters := nw.clusters.foldl (fun acc p => upsertEntry acc p.1 p.2) existing.clusters
  , authInfos := nw.authInfos.foldl (fun acc p => upsertEntry acc p.1 p.2) existing.authInfos
  , contexts := nw.contexts.foldl (fun acc p => upsertEntry acc p.1 p.2) existing.contexts
  , currentContext := nw.currentContext }

/-- Translation of `create` (kubeconfig.go). Certificate generation
(`ca.NewClientCert` / `AsBytes` / `ca.CA.CertBytes()`) is an external cryptographic
capability (spec section 4.2: certificates are byte pairs), so the produced CA cert
bytes, client cert bytes and client key bytes appear here as parameters. -/
def createConfig (caCertBytes clientCertBytes clientKeyBytes : List Nat)
    (clusterName url : String) : Config :=
  { clusters :=
      [(clusterKey clusterName,
        { server := url, certificateAuthorityData := caCertBytes })]
  , authInfos :=
      [(userKey clusterName,
        { clientCertificateData := clientCertBytes, clientKeyData := clientKeyBytes })]
  , contexts :=
      [(contextKey clusterName,
        { cluster := clusterKey clusterName, authInfo := userKey clusterName })]
  , currentContext := contextKey clusterName }

/-- Translation of `CreateOrMerge` (kubeconfig.go) on an already-loaded existing
config: build the new config with `create`, merge it into the existing one, and
return the merged config together with its current context (the function's second
return value). Loading and writing the file are external file effects. -/
def createOrMergeConfig (caCertBytes clientCertBytes clientKeyBytes : List Nat)
    (clusterName url : String) (existing : Config) : Config × String :=
  let merged := mergeConfig
    (createConfig caCertBytes clientCertBytes clientKeyBytes clusterName url) existing
  (merged, merged.currentContext)

/-- Translation of `remove` (kubeconfig.go): delete the three derived keys when
present, clear the current context when it equals the derived context key, and
report whether anything was mutated. -/
def removeFromConfig (clusterName : String) (config : Config) : Config × Bool :=
  let hasCluster := config.clusters.any (fun p => p.1 == clusterKey clusterName)
  let clusters1 := if hasCluster then
      config.clusters.filter (fun p => p.1 != clusterKey clusterName)
    else config.clusters
  let mutated1 := hasCluster
  let hasUser := config.authInfos.any (fun p => p.1 == userKey clusterName)
  let authInfos1 := if hasUser then
      config.authInfos.filter (fun p => p.1 != userKey clusterName)
    else config.authInfos
  let mutated2 := mutated1 || hasUser
  let hasContext := config.contexts.any (fun p => p.1 == contextKey clusterName)
  let contexts1 := if hasContext then
      config.contexts.filter (fun p => p.1 != contextKey clusterName)
    else config.contexts
  let mutated3 := mutated2 || hasContext
  let isCurrent := config.currentContext == contextKey clusterName
  let current1 := if isCurrent then "" else config.currentContext
  let mutated4 := mutated3 || isCurrent
  ({ clusters := clusters1
   , authInfos := authInfos1
   , contexts := contexts1
   , currentContext := current1 }, mutated4)

/-- Translation of `Remove` (kubeconfig.go) for one file of the loading precedence:
run `remove` on the loaded config and rewrite the file only when `remove` reported a
mutation. The boolean records whether the file was rewritten; file input/output
errors are external effects and the function itself returns no other error. -/
def removeConfigFile (clusterName : String) (file : Config) : Config × Bool :=
  let r := removeFromConfig clusterName file
  if r.2 then (r.1, true) else (file, false)

/-- Number of entries of an association list stored under a given key. -/
def countKey {v : Type} (m : List (String × v)) (k : String) : Nat :=
  (m.filter (fun p => p.1 == k)).length

/-! ## Control-plane teardown model: pkg/controlplane

`ControlPlane`, `APIServer` and `Etcd` keep pointers to a `process.State` plus a log
file and buffered writer. `Option.none` embeds a Go nil pointer; dereferencing it is
the `panicked` outcome.
-/

/-- Outcome of running a piece of Go code that can hit a nil-pointer dereference. -/
inductive GoOutcome (A : Type) where
  | ok (a : A)
  | panicked
deriving DecidableEq

/-- The supervised-process handle (pkg/process State), reduced to the readiness flag;
none of its fields matter for the teardown claims. -/
structure ProcessState where
  ready : Bool
deriving DecidableEq

/-- Modelled from the spec: the pkg/process package is not under src/. Spec section
4.1 requires that `Stop()` sends a termination signal, waits for exit, and is safe to
call multiple times or on a never-started handle (no-op, no panic). It is therefore
embedded as an always-succeeding, never-panicking operation, also when the method is
invoked on a nil `process.State` pointer. -/
def processStateStop (_s : Option ProcessState) : GoOutcome Unit :=
  GoOutcome.ok ()

/-- The fields of `Etcd` (etcd.go) read by its `Stop` method. The log writer and log
file pointers are kept as presence flags; flushing and closing them are external file
effects modelled as succeeding. -/
structure Etcd where
  processState : Option ProcessState
  hasLogFileWriter : Bool
  hasLogFile : Bool
deriving DecidableEq

/-- The fields of `APIServer` (apiserver source, same file set as etcd.go) read by
its `Stop` method. -/
structure APIServer where
  processState : Option ProcessState
  hasLogFileWriter : Bool
  hasLogFile : Bool
deriving DecidableEq

/-- Translation of `Etcd.Stop` (etcd.go), invoked on a possibly-nil receiver: a nil
receiver panics on the first field access `e.processState`; otherwise the process is
stopped, and the flush/close of the log sink are guarded by explicit nil checks in
the source (so they cannot panic) and modelled as succeeding, as is the final
`os.RemoveAll(e.dataDir)`. -/
def Etcd.Stop : Option Etcd → GoOutcome Unit
  | Option.none => GoOutcome.panicked
  | Option.some e =>
    match processStateStop e.processState with
    | GoOutcome.panicked => GoOutcome.panicked
    | GoOutcome.ok _ => GoOutcome.ok ()

/-- Translation of `APIServer.Stop`, invoked on a possibly-nil receiver: a nil
receiver panics on the first field access `a.processState`; the flush and close are
nil-guarded in the source and modelled as succeeding. -/
def APIServer.Stop : Option APIServer → GoOutcome Unit
  | Option.none => GoOutcome.panicked
  | Option.some a =>
    match processStateStop a.processState with
    | GoOutcome.panicked => GoOutcome.panicked
    | GoOutcome.ok _ => GoOutcome.ok ()

/-- The fields of `ControlPlane` (controlplane.go) read by its `Stop` method. Both
component pointers are nil until `Start` assigns them. -/
structure ControlPlane where
  etcd : Option Etcd
  apiServer : Option APIServer
deriving DecidableEq

/-- One externally visible teardown step of `ControlPlane.Stop`. -/
inductive StopStep where
  | apiServerStopped
  | storeStopped
  | credentialsRemoved
deriving DecidableEq

/-- Translation of `ControlPlane.Stop` (controlplane.go): first `cp.apiServer.Stop()`,
then `cp.etcd.Stop()`, then `kubeconfig.Remove("bootstrap", "")`. The returned list
records the steps completed in order; the boolean records whether the call panicked
before finishing. The credentials removal itself only performs file effects and is
modelled as succeeding. -/
def ControlPlane.Stop (cp : ControlPlane) : List StopStep × Bool :=
  match APIServer.Stop cp.apiServer with
  | GoOutcome.panicked => ([], true)
  | GoOutcome.ok _ =>
    match Etcd.Stop cp.etcd with
    | GoOutcome.panicked => ([StopStep.apiServerStopped], true)
    | GoOutcome.ok _ =>
      ([StopStep.apiServerStopped, StopStep.storeStopped, StopStep.credentialsRemoved],
       false)

/-- A fully started control plane (both components assigned by `Start`), used to
observe the teardown order. -/
def cpReady : ControlPlane :=
  { etcd := Option.some
      { processState := Option.some { ready := true }
      , hasLogFileWriter := true
      , hasLogFile := true }
  , apiServer := Option.some
      { processState := Option.some { ready := true }
      , hasLogFileWriter := true
      , hasLogFile := true } }

/-! ## Manifest reading and adaptation model: pkg/provider/provider.go

The three managed Kubernetes kinds are embedded structurally. A YAML document
fragment is a `ManifestDoc`; its constructor plays the role of the `generic.Kind`
string and it carries the `generic.APIVersion` string examined by the classification
switch of `readAndAdaptManifestObjects`. Pointer-valued fields of the Kubernetes
types are `Option`s; `*x` on a nil pointer is the panic outcome.
-/

/-- admissionregistration ServiceReference: the in-cluster service a webhook client
config points at (namespace, name, optional path). -/
structure ServiceReference where
  nsName : String
  name : String
  path : Option String
deriving DecidableEq

/-- Webhook client config shape shared by admissionregistration webhooks and
apiextensions conversion webhooks: optional URL, optional in-cluster service
reference, CA bundle bytes. -/
structure WebhookClientConfig where
  url : Option String
  service : Option ServiceReference
  caBundle : List Nat
deriving DecidableEq

/-- One webhook entry of a Mutating/ValidatingWebhookConfiguration, reduced to the
fields the adaptation touches. -/
structure WebhookEntry where
  name : String
  clientConfig : WebhookClientConfig
deriving DecidableEq

/-- A Mutating- or ValidatingWebhookConfiguration object: name plus webhook list
(the two kinds have the same shape here and the source adapts them with two
textually identical loops). -/
structure WebhookConfiguration where
  name : String
  webhooks : List WebhookEntry
deriving DecidableEq

/-- apiextensions WebhookConversion: conversion client config plus review versions. -/
structure WebhookConversion where
  clientConfig : Option WebhookClientConfig
  conversionReviewVersions : List String
deriving DecidableEq

/-- apiextensions CustomResourceConversion: strategy string ("None" or "Webhook")
plus optional webhook conversion. -/
structure CustomResourceConversion where
  strategy : String
  webhook : Option WebhookConversion
deriving DecidableEq

/-- The CRD spec reduced to the conversion field, the only one the adaptation
touches. -/
structure CRDSpec where
  conversion : Option CustomResourceConversion
deriving DecidableEq

/-- A CustomResourceDefinition object: name plus spec. -/
structure CustomResourceDefinition where
  name : String
  spec : CRDSpec
deriving DecidableEq

/-- One YAML document fragment of a provider manifest, after unmarshalling: the
constructor is the `kind`, the first argument the `apiVersion`. Fragments of any
other kind carry only their kind/apiVersion/name strings and are skipped. -/
inductive ManifestDoc where
  | crd (apiVersion : String) (c : CustomResourceDefinition)
  | mutHook (apiVersion : String) (h : WebhookConfiguration)
  | valHook (apiVersion : String) (h : WebhookConfiguration)
  | other (kind apiVersion name : String)
deriving DecidableEq

/-- The collected classified objects (`manifestObjects` in provider.go). -/
structure ManifestObjects where
  crds : List CustomResourceDefinition
  mutHooks : List WebhookConfiguration
  valHooks : List WebhookConfiguration
deriving DecidableEq

/-- Translation of the classification loop of `readAndAdaptManifestObjects`
(provider.go): walk the fragments in manifest order, switch on the kind, reject a
managed kind whose apiVersion is not the exactly supported one with the source's
error message, append recognized objects, and silently skip every other kind. -/
def classifyLoop (acc : ManifestObjects) : List ManifestDoc → Except String ManifestObjects
  | [] => Except.ok acc
  | ManifestDoc.crd v c :: rest =>
    if v == "apiextensions.k8s.io/v1" then
      classifyLoop { acc with crds := acc.crds ++ [c] } rest
    else
      Except.error
        ("only v1 is supported right now for CustomResourceDefinition (name: " ++
          c.name ++ ")")
  | ManifestDoc.mutHook v h :: rest =>
    if v == "admissionregistration.k8s.io/v1" then
      classifyLoop { acc with mutHooks := acc.mutHooks ++ [h] } rest
    else
      Except.error
        ("only v1 is supported right now for MutatingWebhookConfiguration (name: " ++
          h.name ++ ")")
  | ManifestDoc.valHook v h :: rest =>
    if v == "admissionregistration.k8s.io/v1" then
      classifyLoop { acc with valHooks := acc.valHooks ++ [h] } rest
    else
      Except.error
        ("only v1 is supported right now for ValidatingWebhookConfiguration (name: " ++
          h.name ++ ")")
  | ManifestDoc.other _ _ _ :: rest => classifyLoop acc rest

/-- Translation of `providerURL` (provider.go): allocated host plus webhook and
health ports. -/
structure providerURL where
  host : String
  webhookPort : Nat
  healthPort : Nat
deriving DecidableEq

/-- Translation of Go's `net.JoinHostPort`: bracket the host when it contains a
colon, then join with a colon. -/
def joinHostPort (host port : String) : String :=
  if host.data.any (fun c => c == Char.ofNat 58) then "[" ++ host ++ "]:" ++ port
  else host ++ ":" ++ port

/-- Translation of `providerURL.webhookHostPort` (provider.go). -/
def webhookHostPort (u : providerURL) : String :=
  joinHostPort u.host (toString u.webhookPort)

/-- The `localServingUrl` built by `readAndAdaptManifestObjects`: the string form of
`url.URL{Scheme: "https", Host: u.webhookHostPort()}`. -/
def localServingURL (u : providerURL) : String :=
  "https://" ++ webhookHostPort u

/-- Translation of the CRD adaptation step of `readAndAdaptManifestObjects`
(provider.go): allocate the `Conversion` wrapper only when it is nil (with a non-nil
empty `Webhook` sub-object), then unconditionally set the strategy to webhook
conversion, the review versions, and a client config pointing at
`<localServingUrl>/convert` with the provider CA bundle and a nil service. When the
fragment already carried a non-nil `Conversion` whose `Webhook` sub-object is nil,
the unguarded write to `Conversion.Webhook.ConversionReviewVersions` dereferences a
nil pointer: the panic outcome. -/
def adaptCRD (servingBase : String) (caData : List Nat)
    (c : CustomResourceDefinition) : Option CustomResourceDefinition :=
  let conv : CustomResourceConversion :=
    match c.spec.conversion with
    | Option.none =>
      { strategy := ""
      , webhook := Option.some { clientConfig := Option.none, conversionReviewVersions := [] } }
    | Option.some cv => cv
  match conv.webhook with
  | Option.none => Option.none
  | Option.some _ =>
    let cc : WebhookClientConfig :=
      { url := Option.some (servingBase ++ "/convert")
      , service := Option.none
      , caBundle := caData }
    let wc : WebhookConversion :=
      { conversionReviewVersions := ["v1", "v1beta1"]
      , clientConfig := Option.some cc }
    let newConv : CustomResourceConversion :=
      { strategy := "Webhook", webhook := Option.some wc }
    Option.some { name := c.name, spec := { conversion := Option.some newConv } }

/-- Translation of the per-entry webhook adaptation of `readAndAdaptManifestObjects`
(provider.go), shared by the two textually identical loops over mutating and
validating webhook configurations: replace the entry's client config with a nil
service, the URL `<localServingUrl>/<*ClientConfig.Service.Path>` and the provider CA
bundle. Reading `*...ClientConfig.Service.Path` dereferences the `Service` pointer
and then the `Path` pointer: either being nil is the panic outcome. -/
def adaptWebhookEntry (servingBase : String) (caData : List Nat)
    (w : WebhookEntry) : Option WebhookEntry :=
  match w.clientConfig.service with
  | Option.none => Option.none
  | Option.some svc =>
    match svc.path with
    | Option.none => Option.none
    | Option.some p =>
      let cc : WebhookClientConfig :=
        { url := Option.some (servingBase ++ "/" ++ p)
        , service := Option.none
        , caBundle := caData }
      Option.some { name := w.name, clientConfig := cc }

/-- Map a possibly-panicking step over a list, propagating the first panic (the Go
loops run the entries in order and the first nil dereference aborts the program). -/
def mapOption {A B : Type} (f : A → Option B) : List A → Option (List B)
  | [] => Option.some []
  | a :: rest =>
    match f a with
    | Option.none => Option.none
    | Option.some b =>
      match mapOption f rest with
      | Option.none => Option.none
      | Option.some bs => Option.some (b :: bs)

/-- Adaptation of one webhook configuration: adapt every entry of its webhook list
in order. -/
def adaptWebhookConfiguration (servingBase : String) (caData : List Nat)
    (h : WebhookConfiguration) : Option WebhookConfiguration :=
  match mapOption (adaptWebhookEntry servingBase caData) h.webhooks with
  | Option.none => Option.none
  | Option.some ws => Option.some { h with webhooks := ws }

/-- Result of `readAndAdaptManifestObjects`: the adapted objects, a configuration
error (unsupported apiVersion, returned as a Go error), or a runtime panic from a
nil-pointer dereference in the adaptation loops. -/
inductive AdaptResult where
  | ok (objs : ManifestObjects)
  | configError (msg : String)
  | panicked
deriving DecidableEq

/-- Translation of `readAndAdaptManifestObjects` (provider.go): classify all
fragments first (any unsupported apiVersion aborts with a configuration error before
any adaptation runs), then adapt all CRDs, then all mutating webhook configurations,
then all validating webhook configurations. -/
def readAndAdaptManifestObjects (docs : List ManifestDoc) (u : providerURL)
    (caData : List Nat) : AdaptResult :=
  match classifyLoop { crds := [], mutHooks := [], valHooks := [] } docs with
  | Except.error msg => AdaptResult.configError msg
  | Except.ok objs =>
    let base := localServingURL u
    match mapOption (adaptCRD base caData) objs.crds with
    | Option.none => AdaptResult.panicked
    | Option.some crds1 =>
      match mapOption (adaptWebhookConfiguration base caData) objs.mutHooks with
      | Option.none => AdaptResult.panicked
      | Option.some mut1 =>
        match mapOption (adaptWebhookConfiguration base caData) objs.valHooks with
        | Option.none => AdaptResult.panicked
        | Option.some val1 =>
          AdaptResult.ok { crds := crds1, mutHooks := mut1, valHooks := val1 }

/-- One API-server request issued by the apply closures of `createManifestObjects`. -/
inductive APICall where
  | getCRD (name : String)
  | createCRD (name : String)
  | updateCRD (name : String)
  | getMutatingWebhookConfiguration (name : String)
  | createMutatingWebhookConfiguration (name : String)
  | updateMutatingWebhookConfiguration (name : String)
  | getValidatingWebhookConfiguration (name : String)
  | createValidatingWebhookConfiguration (name : String)
  | updateValidatingWebhookConfiguration (name : String)
deriving DecidableEq

/-- The objects already present on the running API server, by kind and name. -/
structure APIServerObjects where
  crdNames : List String
  mutHookNames : List String
  valHookNames : List String
deriving DecidableEq

/-- The call sequence of one group of apply closures of `createManifestObjects`
(provider.go): for each object in order, a get, then a create when the get reported
not-found and an update (with the server's resource version copied over) otherwise.
The subsequent readiness polling only issues further gets and is not recorded. -/
def applyObjectCalls (getC createC updateC : String → APICall)
    (present : List String) (names : List String) : List APICall :=
  names.foldl
    (fun acc nm =>
      acc ++ [getC nm] ++
        (if present.any (fun x => x == nm) then [updateC nm] else [createC nm]))
    []

/-- Overall result of `createManifestObjects`. -/
inductive RunResult where
  | ok
  | configError (msg : String)
  | panicked
deriving DecidableEq

/-- Whether a run result is the configuration-error outcome. -/
def isConfigError : RunResult → Bool
  | RunResult.configError _ => true
  | RunResult.ok => false
  | RunResult.panicked => false

/-- Translation of `createManifestObjects` (provider.go) against a server already
holding the given objects: read and adapt the manifest; on a configuration error
return it (wrapped by the source into "unable to get provider crds") with no API
call issued; on a panic abort with no API call issued; otherwise run the apply
closures in their registration order (all CRDs, then all mutating webhook
configurations, then all validating webhook configurations) and record the issued
calls. Client construction from the kubeconfig issues no object calls. -/
def createManifestObjects (docs : List ManifestDoc) (u : providerURL)
    (caData : List Nat) (server : APIServerObjects) : RunResult × List APICall :=
  match readAndAdaptManifestObjects docs u caData with
  | AdaptResult.configError msg => (RunResult.configError msg, [])
  | AdaptResult.panicked => (RunResult.panicked, [])
  | AdaptResult.ok objs =>
    (RunResult.ok
    , applyObjectCalls APICall.getCRD APICall.createCRD APICall.updateCRD
        server.crdNames (objs.crds.map (fun c => c.name))
      ++ applyObjectCalls APICall.getMutatingWebhookConfiguration
        APICall.createMutatingWebhookConfiguration
        APICall.updateMutatingWebhookConfiguration
        server.mutHookNames (objs.mutHooks.map (fun h => h.name))
      ++ applyObjectCalls APICall.getValidatingWebhookConfiguration
        APICall.createValidatingWebhookConfiguration
        APICall.updateValidatingWebhookConfiguration
        server.valHookNames (objs.valHooks.map (fun h => h.name)))

/-- Whether a fragment is of a managed kind but declares an unsupported apiVersion
(the rejection condition of the classification switch). -/
def unsupportedVersion : ManifestDoc → Bool
  | ManifestDoc.crd v _ => !(v == "apiextensions.k8s.io/v1")
  | ManifestDoc.mutHook v _ => !(v == "admissionregistration.k8s.io/v1")
  | ManifestDoc.valHook v _ => !(v == "admissionregistration.k8s.io/v1")
  | ManifestDoc.other _ _ _ => false

/-- Whether a webhook configuration contains an entry whose client config has a nil
in-cluster service reference. -/
def hasNilServiceEntry (h : WebhookConfiguration) : Bool :=
  h.webhooks.any (fun w => w.clientConfig.service.isNone)

/-! ## Provider-name aggregation model: kBB-8.go (main)

`main` starts one goroutine per provider and each goroutine executes
`names = append(names, p.Name())` on the slice `names` shared by all of them,
with no lock or channel. A Go `append` on a shared slice is not atomic: it reads
the current slice value and later publishes an extended one. The model makes the
two halves explicit scheduling steps, so an interleaving of the concurrently
running goroutines is a list of steps.
-/

/-- Translation of `filepath.Base` for the slash-separated, non-slash-terminated
paths used by main: the characters after the last slash. -/
def baseName (p : String) : String :=
  String.mk ((p.data.reverse.takeWhile (fun c => !(c == Char.ofNat 47))).reverse)

/-- Translation of `strings.TrimPrefix(s, "bootstrap-")`: drop the leading
occurrence when present. -/
def trimBootstrapStr (s : String) : String :=
  if s.data.take (("bootstrap-").data.length) = ("bootstrap-").data
  then String.mk (s.data.drop (("bootstrap-").data.length))
  else s

/-- Translation of `Provider.Name` (provider.go):
`strings.ToUpper(strings.TrimPrefix(filepath.Base(p.PackagePath), "bootstrap-"))`,
with the character-wise upper-casing written over the character list. -/
def providerName (packagePath : String) : String :=
  String.mk ((trimBootstrapStr (baseName packagePath)).data.map Char.toUpper)

/-- One scheduling step of worker `i` executing `names = append(names, p.Name())`:
the read of the shared slice and the write publishing the extended slice. -/
inductive AppendStep where
  | readNames (i : Nat)
  | writeNames (i : Nat)
deriving DecidableEq

/-- The aggregation state: the shared `names` slice and each worker's private
snapshot taken by its read (none until the worker has read). -/
structure AggState where
  names : List String
  snapshots : List (Option (List String))
deriving DecidableEq

/-- Execute one scheduling step of the unsynchronized aggregation: a read stores the
current shared slice in the worker's snapshot; a write publishes the worker's
snapshot extended with its provider name, discarding any concurrent extension
published since the snapshot was taken. A write by a worker that has not read is a
no-op (such schedules are not program orders). -/
def execStep (names : List String) (s : AggState) : AppendStep → AggState
  | AppendStep.readNames i =>
    { s with snapshots := s.snapshots.set i (Option.some s.names) }
  | AppendStep.writeNames i =>
    match s.snapshots.getD i Option.none with
    | Option.none => s
    | Option.some snap =>
      { s with names := snap ++ [names.getD i ("")] }

/-- The shared `names` slice observed after running the given interleaving of the
per-provider goroutines of main, starting from the empty slice. -/
def runUnsynchronized (names : List String) (sched : List AppendStep) : List String :=
  (sched.foldl (execStep names)
    { names := [], snapshots := List.replicate names.length Option.none }).names

/-! ## Concrete inputs used by counterexamples and witnesses -/

/-- A webhook entry whose client config carries an in-cluster service reference
with callback path "/mutate" (the shape Cluster API manifests use). -/
def mutateEntry : WebhookEntry :=
  { name := "default.cluster.x-k8s.io"
  , clientConfig :=
    { url := Option.none
    , service := Option.some
        { nsName := "capi-system"
        , name := "capi-webhook-service"
        , path := Option.some ("/mutate") }
    , caBundle := [] } }

/-- A mutating webhook configuration fragment holding only `mutateEntry`. -/
def mutateHook : WebhookConfiguration :=
  { name := "capi-mutating-webhook-configuration"
  , webhooks := [mutateEntry] }

/-- The adapted objects produced from the single-fragment manifest holding
`mutateHook`: the rewritten callback URL contains a double slash, because the
source inserts a "/" between the serving base URL and the original service path,
and the original path already starts with "/". -/
def mutateHookAdapted : ManifestObjects :=
  { crds := []
  , mutHooks :=
      [ { name := "capi-mutating-webhook-configuration"
        , webhooks :=
            [ { name := "default.cluster.x-k8s.io"
              , clientConfig :=
                { url := Option.some ("https://127.0.0.1:9443//mutate")
                , service := Option.none
                , caBundle := [5] } } ] } ]
  , valHooks := [] }

/-- The allocated local webhook identity used in the concrete counterexamples. -/
def sampleURL : providerURL :=
  { host := "127.0.0.1", webhookPort := 9443, healthPort := 9440 }

/-- A CRD fragment that already declares a conversion strategy ("None", with a
non-nil webhook sub-object so the adaptation does not panic on it). -/
def strategyCRD : CustomResourceDefinition :=
  { name := "clusters.cluster.x-k8s.io"
  , spec :=
    { conversion := Option.some
        { strategy := "None"
        , webhook := Option.some
            { clientConfig := Option.none, conversionReviewVersions := [] } } } }

/-- The adapted objects produced from the single-fragment manifest holding
`strategyCRD`. -/
def strategyCRDAdapted : ManifestObjects :=
  { crds :=
      [ { name := "clusters.cluster.x-k8s.io"
        , spec :=
          { conversion := Option.some
              { strategy := "Webhook"
              , webhook := Option.some
                  { conversionReviewVersions := ["v1", "v1beta1"]
                  , clientConfig := Option.some
                      { url := Option.some ("https://127.0.0.1:9443/convert")
                      , service := Option.none
                      , caBundle := [7] } } } } } ]
  , mutHooks := []
  , valHooks := [] }

/-- A webhook configuration fragment with a single URL-based entry: its client
config has no in-cluster service reference. -/
def urlOnlyHook : WebhookConfiguration :=
  { name := "capi-validating-webhook-configuration"
  , webhooks :=
      [ { name := "validation.cluster.x-k8s.io"
        , clientConfig :=
          { url := Option.some ("https://example.test/validate")
          , service := Option.none
          , caBundle := [] } } ] }

/-- A credentials file whose maps are empty but whose current context still points
at the derived context key (a dangling current-selection pointer). -/
def danglingCurrentConfig : Config :=
  { clusters := [], authInfos := [], contexts := []
  , currentContext := "kBB-8-bootstrap" }

/-- A pre-existing credentials file with one externally managed entry per map and an
externally managed current context. -/
def externalConfig : Config :=
  { clusters := [("minikube", { server := "https://192.168.49.2:8443", certificateAuthorityData := [9] })]
  , authInfos := [("minikube-user", { clientCertificateData := [8], clientKeyData := [6] })]
  , contexts := [("minikube-ctx", { cluster := "minikube", authInfo := "minikube-user" })]
  , currentContext := "minikube-ctx" }

/-- Whether classification ended in the rejection of a fragment. -/
def isClassifyError : Except String ManifestObjects → Bool
  | Except.error _ => true
  | Except.ok _ => false

/-- An API server holding no objects yet (the state in which a provider manifest is
first reconciled). -/
def emptyServer : APIServerObjects :=
  { crdNames := [], mutHookNames := [], valHookNames := [] }

/-- The empty accumulator the classification loop starts from. -/
def emptyObjects : ManifestObjects :=
  { crds := [], mutHooks := [], valHooks := [] }

/-! ## Theorems

Helper lemmas about the embedded map operations first, then one theorem (plus
counterexample and witness where applicable) per reviewed claim.
-/

theorem lookup_map_overwrite {v : Type} (k : String) (val : v) :
    ∀ m : List (String × v), m.any (fun p => p.1 == k) = true →
      List.lookup k (m.map (fun p => if p.1 == k then (k, val) else p)) = Option.some val := by
  intro m
  induction m with
  | nil => intro h; simp at h
  | cons a t ih =>
    intro h
    by_cases ha : a.1 = k
    · have hb : (a.1 == k) = true := by simpa using ha
      rw [List.map_cons, if_pos hb]
      simp [List.lookup]
    · have hb : (a.1 == k) = false := beq_false_of_ne ha
      have ht : t.any (fun p => p.1 == k) = true := by simpa [hb] using h
      have hb2 : (k == a.1) = false := beq_false_of_ne (fun e => ha e.symm)
      rw [List.map_cons, if_neg (by simp [hb])]
      simpa [List.lookup, hb2] using ih ht

theorem lookup_append_absent {v : Type} (k : String) (val : v) :
    ∀ m : List (String × v), m.any (fun p => p.1 == k) = false →
      List.lookup k (m ++ [(k, val)]) = Option.some val := by
  intro m
  induction m with
  | nil => intro _; simp [List.lookup]
  | cons a t ih =>
    intro h
    have ha : (a.1 == k) = false := by
      cases hx : (a.1 == k) with
      | true => simp [hx] at h
      | false => rfl
    have ha2 : ¬ a.1 = k := by simpa using ha
    have ht : t.any (fun p => p.1 == k) = false := by simpa [ha] using h
    have hb2 : (k == a.1) = false := beq_false_of_ne (fun e => ha2 e.symm)
    simpa [List.lookup, hb2] using ih ht

theorem lookup_upsertEntry {v : Type} (m : List (String × v)) (k : String) (val : v) :
    List.lookup k (upsertEntry m k val) = Option.some val := by
  unfold upsertEntry
  by_cases h : m.any (fun p => p.1 == k) = true
  · rw [if_pos h]; exact lookup_map_overwrite k val m h
  · rw [if_neg h]
    exact lookup_append_absent k val m (Bool.eq_false_iff.mpr h)

theorem countKey_absent {v : Type} (m : List (String × v)) (k : String)
    (h : m.any (fun p => p.1 == k) = false) : countKey m k = 0 := by
  unfold countKey
  rw [List.length_eq_zero, List.filter_eq_nil_iff]
  rw [List.any_eq_false] at h
  exact fun p hp => by simpa using h p hp

theorem countKey_map_overwrite {v : Type} (k : String) (val : v) :
    ∀ m : List (String × v),
      countKey (m.map (fun p => if p.1 == k then (k, val) else p)) k = countKey m k := by
  intro m
  induction m with
  | nil => rfl
  | cons a t ih =>
    by_cases ha : a.1 = k
    · have hb : (a.1 == k) = true := by simpa using ha
      rw [List.map_cons, if_pos hb]
      unfold countKey at ih ⊢
      simp only [List.filter_cons, hb, beq_self_eq_true, if_pos]
      simpa using ih
    · have hb : (a.1 == k) = false := beq_false_of_ne ha
      rw [List.map_cons, if_neg (by simp [hb])]
      unfold countKey at ih ⊢
      simp only [List.filter_cons, hb]
      simpa using ih

theorem countKey_present_nodup {v : Type} (k : String) :
    ∀ m : List (String × v), (m.map Prod.fst).Nodup →
      m.any (fun p => p.1 == k) = true → countKey m k = 1 := by
  intro m
  induction m with
  | nil => intro _ h; simp at h
  | cons a t ih =>
    intro hnd h
    rw [List.map_cons, List.nodup_cons] at hnd
    by_cases ha : a.1 = k
    · have hb : (a.1 == k) = true := by simpa using ha
      have ht0 : countKey t k = 0 := by
        apply countKey_absent
        rw [List.any_eq_false]
        intro p hp hc
        have hpk : p.1 = k := by simpa using hc
        exact hnd.1 (by rw [ha, ← hpk]; exact List.mem_map_of_mem Prod.fst hp)
      unfold countKey at ht0 ⊢
      simp only [List.filter_cons, hb, if_pos]
      simpa using ht0
    · have hb : (a.1 == k) = false := beq_false_of_ne ha
      have ht : t.any (fun p => p.1 == k) = true := by simpa [hb] using h
      unfold countKey at ih ⊢
      simp only [List.filter_cons, hb]
      simpa using ih hnd.2 ht

theorem countKey_upsertEntry {v : Type} (m : List (String × v)) (k : String) (val : v)
    (hnd : (m.map Prod.fst).Nodup) : countKey (upsertEntry m k val) k = 1 := by
  unfold upsertEntry
  by_cases h : m.any (fun p => p.1 == k) = true
  · rw [if_pos h, countKey_map_overwrite]
    exact countKey_present_nodup k m hnd h
  · rw [if_neg h]
    have h0 := countKey_absent m k (Bool.eq_false_iff.mpr h)
    unfold countKey at h0 ⊢
    rw [List.filter_append, List.length_append, h0]
    simp [List.filter_cons]

theorem keys_map_overwrite {v : Type} (k : String) (val : v) (m : List (String × v)) :
    (m.map (fun p => if p.1 == k then (k, val) else p)).map Prod.fst = m.map Prod.fst := by
  rw [List.map_map]
  apply List.map_congr_left
  intro p _
  by_cases hp : p.1 = k
  · have hb : (p.1 == k) = true := by simpa using hp
    simp [Function.comp, if_pos hb, hp]
  · have hb : (p.1 == k) = false := beq_false_of_ne hp
    simp [Function.comp, hb]

theorem nodup_upsertEntry {v : Type} (m : List (String × v)) (k : String) (val : v)
    (hnd : (m.map Prod.fst).Nodup) : ((upsertEntry m k val).map Prod.fst).Nodup := by
  unfold upsertEntry
  by_cases h : m.any (fun p => p.1 == k) = true
  · rw [if_pos h, keys_map_overwrite]
    exact hnd
  · rw [if_neg h, List.map_append]
    rw [List.nodup_append]
    refine ⟨hnd, List.nodup_singleton k, ?_⟩
    intro x hx
    have h2 := Bool.eq_false_iff.mpr h
    rw [List.any_eq_false] at h2
    simp only [List.mem_map] at hx
    obtain ⟨p, hp, hpe⟩ := hx
    simp only [List.map_cons, List.map_nil, List.mem_singleton]
    intro he
    exact h2 p hp (by simp [hpe, he])

theorem filter_map_overwrite {v : Type} (k : String) (val : v) :
    ∀ m : List (String × v),
      (m.map (fun p => if p.1 == k then (k, val) else p)).filter (fun p => p.1 != k)
        = m.filter (fun p => p.1 != k) := by
  intro m
  induction m with
  | nil => rfl
  | cons a t ih =>
    by_cases ha : a.1 = k
    · have hb : (a.1 == k) = true := by simpa using ha
      rw [List.map_cons, if_pos hb]
      simp only [List.filter_cons, hb, bne_self_eq_false]
      simpa [hb, ha] using ih
    · have hb : (a.1 == k) = false := beq_false_of_ne ha
      rw [List.map_cons, if_neg (by simp [hb])]
      simp only [List.filter_cons]
      rw [ih]

theorem filter_upsertEntry {v : Type} (m : List (String × v)) (k : String) (val : v) :
    (upsertEntry m k val).filter (fun p => p.1 != k) = m.filter (fun p => p.1 != k) := by
  unfold upsertEntry
  by_cases h : m.any (fun p => p.1 == k) = true
  · rw [if_pos h]
    exact filter_map_overwrite k val m
  · rw [if_neg h, List.filter_append]
    simp [List.filter_cons]

theorem any_key_filter {v : Type} (m : List (String × v)) (k : String) :
    (m.filter (fun p => p.1 != k)).any (fun p => p.1 == k) = false := by
  rw [List.any_eq_false]
  intro p hp hc
  rw [List.mem_filter] at hp
  have hne : p.1 ≠ k := by simpa using hp.2
  exact hne (by simpa using hc)

/-- C4: merging a credentials entry for the same cluster name twice into any
pre-existing config (whose maps, being Go maps, have no duplicate keys) leaves
exactly one entry under each of the three derived keys — the cluster key, the user
key with the "-admin" suffix, and the context key — and the entry values are those
of the second merge (upsert by key, never duplicate). -/
theorem credentials_merge_idempotent
    (existing : Config) (n url1 url2 : String)
    (ca1 cc1 ck1 ca2 cc2 ck2 : List Nat)
    (h1 : (existing.clusters.map Prod.fst).Nodup)
    (h2 : (existing.authInfos.map Prod.fst).Nodup)
    (h3 : (existing.contexts.map Prod.fst).Nodup)
    (twice : Config)
    (htw : twice = (createOrMergeConfig ca2 cc2 ck2 n url2
        ((createOrMergeConfig ca1 cc1 ck1 n url1 existing).1)).1) :
    countKey twice.clusters (clusterKey n) = 1
    ∧ List.lookup (clusterKey n) twice.clusters
        = Option.some { server := url2, certificateAuthorityData := ca2 }
    ∧ countKey twice.authInfos (userKey n) = 1
    ∧ List.lookup (userKey n) twice.authInfos
        = Option.some { clientCertificateData := cc2, clientKeyData := ck2 }
    ∧ countKey twice.contexts (contextKey n) = 1
    ∧ List.lookup (contextKey n) twice.contexts
        = Option.some { cluster := clusterKey n, authInfo := userKey n } := by
  subst htw
  simp only [createOrMergeConfig, mergeConfig, createConfig, List.foldl_cons, List.foldl_nil]
  refine ⟨?_, ?_, ?_, ?_, ?_, ?_⟩
  · exact countKey_upsertEntry _ _ _ (nodup_upsertEntry _ _ _ h1)
  · exact lookup_upsertEntry _ _ _
  · exact countKey_upsertEntry _ _ _ (nodup_upsertEntry _ _ _ h2)
  · exact lookup_upsertEntry _ _ _
  · exact countKey_upsertEntry _ _ _ (nodup_upsertEntry _ _ _ h3)
  · exact lookup_upsertEntry _ _ _

/-- Witness for C4 at a concrete pre-existing config holding an externally managed
entry per map: after merging the "bootstrap" entry twice, each derived key holds
exactly one entry carrying the second merge's values. -/
theorem credentials_merge_idempotent_witness :
    countKey ((createOrMergeConfig [4] [5] [6] ("bootstrap") ("https://127.0.0.1:6444")
        ((createOrMergeConfig [1] [2] [3] ("bootstrap") ("https://127.0.0.1:6443")
          externalConfig).1)).1).clusters (clusterKey ("bootstrap")) = 1
    ∧ List.lookup (clusterKey ("bootstrap"))
        ((createOrMergeConfig [4] [5] [6] ("bootstrap") ("https://127.0.0.1:6444")
          ((createOrMergeConfig [1] [2] [3] ("bootstrap") ("https://127.0.0.1:6443")
            externalConfig).1)).1).clusters
        = Option.some { server := "https://127.0.0.1:6444", certificateAuthorityData := [4] }
    ∧ countKey ((createOrMergeConfig [4] [5] [6] ("bootstrap") ("https://127.0.0.1:6444")
        ((createOrMergeConfig [1] [2] [3] ("bootstrap") ("https://127.0.0.1:6443")
          externalConfig).1)).1).authInfos (userKey ("bootstrap")) = 1
    ∧ List.lookup (userKey ("bootstrap"))
        ((createOrMergeConfig [4] [5] [6] ("bootstrap") ("https://127.0.0.1:6444")
          ((createOrMergeConfig [1] [2] [3] ("bootstrap") ("https://127.0.0.1:6443")
            externalConfig).1)).1).authInfos
        = Option.some { clientCertificateData := [5], clientKeyData := [6] }
    ∧ countKey ((createOrMergeConfig [4] [5] [6] ("bootstrap") ("https://127.0.0.1:6444")
        ((createOrMergeConfig [1] [2] [3] ("bootstrap") ("https://127.0.0.1:6443")
          externalConfig).1)).1).contexts (contextKey ("bootstrap")) = 1
    ∧ List.lookup (contextKey ("bootstrap"))
        ((createOrMergeConfig [4] [5] [6] ("bootstrap") ("https://127.0.0.1:6444")
          ((createOrMergeConfig [1] [2] [3] ("bootstrap") ("https://127.0.0.1:6443")
            externalConfig).1)).1).contexts
        = Option.some { cluster := clusterKey ("bootstrap"), authInfo := userKey ("bootstrap") } :=
  credentials_merge_idempotent externalConfig ("bootstrap")
    ("https://127.0.0.1:6443") ("https://127.0.0.1:6444")
    [1] [2] [3] [4] [5] [6] (by decide) (by decide) (by decide) _ rfl

/-- C5 counterexample: a credentials file holding none of the three derived keys but
whose current-context pointer dangles at the derived context key. The claim asserts
removal performs no mutation when none of the derived keys are present; the code
nevertheless clears the dangling pointer, reports a mutation, and rewrites the
file. -/
theorem remove_dangling_current_cex :
    (danglingCurrentConfig.clusters.any (fun p => p.1 == clusterKey ("bootstrap")) = false)
    ∧ (danglingCurrentConfig.authInfos.any (fun p => p.1 == userKey ("bootstrap")) = false)
    ∧ (danglingCurrentConfig.contexts.any (fun p => p.1 == contextKey ("bootstrap")) = false)
    ∧ removeConfigFile ("bootstrap") danglingCurrentConfig
        = ({ clusters := [], authInfos := [], contexts := [], currentContext := "" }, true)
    ∧ ({ clusters := [], authInfos := [], contexts := [], currentContext := "" }, true)
        ≠ (danglingCurrentConfig, false) := by
  decide

/-- C5 amended: removal deletes the three derived keys from the clusters, users and
contexts maps and clears the current-selection pointer exactly when it pointed at
this entry's context key; and when none of the derived keys are present AND the
current-selection pointer does not equal this entry's context key, removal performs
no mutation and the file is not rewritten (and hence no error can be reported). -/
theorem remove_amended (cfg : Config) (n : String) :
    ((removeFromConfig n cfg).1.clusters.any (fun p => p.1 == clusterKey n) = false)
    ∧ ((removeFromConfig n cfg).1.authInfos.any (fun p => p.1 == userKey n) = false)
    ∧ ((removeFromConfig n cfg).1.contexts.any (fun p => p.1 == contextKey n) = false)
    ∧ ((removeFromConfig n cfg).1.currentContext
        = if cfg.currentContext == contextKey n then "" else cfg.currentContext)
    ∧ (cfg.clusters.any (fun p => p.1 == clusterKey n) = false →
        cfg.authInfos.any (fun p => p.1 == userKey n) = false →
        cfg.contexts.any (fun p => p.1 == contextKey n) = false →
        (cfg.currentContext == contextKey n) = false →
        removeConfigFile n cfg = (cfg, false)) := by
  obtain ⟨cs, au, cx, cur⟩ := cfg
  refine ⟨?_, ?_, ?_, ?_, ?_⟩
  · simp only [removeFromConfig]
    by_cases hc : cs.any (fun p => p.1 == clusterKey n) = true
    · rw [if_pos hc]; exact any_key_filter cs (clusterKey n)
    · rw [if_neg hc]; exact Bool.eq_false_iff.mpr hc
  · simp only [removeFromConfig]
    by_cases hc : au.any (fun p => p.1 == userKey n) = true
    · rw [if_pos hc]; exact any_key_filter au (userKey n)
    · rw [if_neg hc]; exact Bool.eq_false_iff.mpr hc
  · simp only [removeFromConfig]
    by_cases hc : cx.any (fun p => p.1 == contextKey n) = true
    · rw [if_pos hc]; exact any_key_filter cx (contextKey n)
    · rw [if_neg hc]; exact Bool.eq_false_iff.mpr hc
  · simp only [removeFromConfig]
  · intro ha hb hc hd
    simp only [removeConfigFile, removeFromConfig, ha, hb, hc, hd]
    simp

/-- Witness for C5 (amended): on a concrete pre-existing file holding only
externally managed entries and an unrelated current context, removal of the
"bootstrap" entry leaves the file untouched and does not rewrite it. -/
theorem remove_amended_witness :
    removeConfigFile ("bootstrap") externalConfig = (externalConfig, false) := by
  have h := remove_amended externalConfig ("bootstrap")
  exact h.2.2.2.2 (by decide) (by decide) (by decide) (by decide)

/-- C9: merging a credentials entry never touches entries stored under keys other
than the three derived keys — filtering the derived key out of each map of the
merged config gives back exactly the corresponding filtered pre-existing map — yet
the current-selection pointer is unconditionally overwritten with the merged entry's
context key, whatever it pointed at before (including an unrelated externally
managed context), and that context key is also the returned current context. -/
theorem createOrMerge_frame (existing : Config) (n url : String) (ca cc ck : List Nat) :
    ((createOrMergeConfig ca cc ck n url existing).1.clusters.filter
        (fun p => p.1 != clusterKey n)
      = existing.clusters.filter (fun p => p.1 != clusterKey n))
    ∧ ((createOrMergeConfig ca cc ck n url existing).1.authInfos.filter
        (fun p => p.1 != userKey n)
      = existing.authInfos.filter (fun p => p.1 != userKey n))
    ∧ ((createOrMergeConfig ca cc ck n url existing).1.contexts.filter
        (fun p => p.1 != contextKey n)
      = existing.contexts.filter (fun p => p.1 != contextKey n))
    ∧ (createOrMergeConfig ca cc ck n url existing).1.currentContext = contextKey n
    ∧ (createOrMergeConfig ca cc ck n url existing).2 = contextKey n := by
  simp only [createOrMergeConfig, mergeConfig, createConfig, List.foldl_cons, List.foldl_nil]
  exact ⟨filter_upsertEntry _ _ _, filter_upsertEntry _ _ _, filter_upsertEntry _ _ _,
    by trivial, by trivial⟩

/-- C2 counterexample: on a fully started control plane, `Stop()` executes
API-server stop first, then store stop, and removes the credentials entry last —
not the claimed mirror sequence in which the credentials entry is removed first. -/
theorem stop_order_cex :
    ControlPlane.Stop cpReady
      = ([StopStep.apiServerStopped, StopStep.storeStopped, StopStep.credentialsRemoved], false)
    ∧ [StopStep.apiServerStopped, StopStep.storeStopped, StopStep.credentialsRemoved]
      ≠ [StopStep.credentialsRemoved, StopStep.apiServerStopped, StopStep.storeStopped] := by
  decide

/-- C2 amended: for every fully initialized control plane, teardown executes its
steps in the order API server stopped, then store (etcd) stopped, then credentials
entry removed — the state sequence on `Stop()` is
Ready, APIServerStopped, StoreStopped, CredentialsRemoved — without panicking. -/
theorem stop_order_amended (e : Etcd) (a : APIServer) :
    ControlPlane.Stop { etcd := Option.some e, apiServer := Option.some a }
      = ([StopStep.apiServerStopped, StopStep.storeStopped, StopStep.credentialsRemoved],
         false) :=
  rfl

/-- C3: the stop steps are not all guarded against uninitialized fields — on every
control plane whose `Start()` never assigned the API-server component (in particular
the state where no process was ever initialized), `Stop()` dereferences the nil
`apiServer` pointer in its very first step and panics before completing any teardown
step, contradicting the claimed no-panic safety of `Stop`. -/
theorem stop_uninitialized_panics (e : Option Etcd) :
    ControlPlane.Stop { etcd := e, apiServer := Option.none } = ([], true) :=
  rfl

/-- C8: the aggregation of the provider names in main is a plain `append` to the
slice shared by all provider goroutines, with no lock or channel; interleaving the
two halves of two concurrent appends (both goroutines read the empty slice before
either writes) loses the first provider's derived name, while the fully serialized
schedule of the same two goroutines keeps both — the unsynchronized handoff is
observable as a data race, exactly the defect the specification flags. -/
theorem aggregation_race_loses_name :
    runUnsynchronized
        [providerName ("./test/packages/bootstrap-capi"),
         providerName ("./test/packages/bootstrap-cabpk")]
        [AppendStep.readNames 0, AppendStep.readNames 1,
         AppendStep.writeNames 0, AppendStep.writeNames 1]
      = ["CABPK"]
    ∧ runUnsynchronized
        [providerName ("./test/packages/bootstrap-capi"),
         providerName ("./test/packages/bootstrap-cabpk")]
        [AppendStep.readNames 0, AppendStep.writeNames 0,
         AppendStep.readNames 1, AppendStep.writeNames 1]
      = ["CAPI", "CABPK"] := by
  decide

theorem classifyLoop_error_of_unsupported :
    ∀ (docs : List ManifestDoc) (acc : ManifestObjects),
      docs.any unsupportedVersion = true →
      isClassifyError (classifyLoop acc docs) = true := by
  intro docs
  induction docs with
  | nil => intro _ h; simp at h
  | cons d rest ih =>
    intro acc h
    cases d with
    | crd v c =>
      by_cases hv : (v == "apiextensions.k8s.io/v1") = true
      · have hrest : rest.any unsupportedVersion = true := by
          simpa [unsupportedVersion, hv] using h
        simpa [classifyLoop, hv] using ih _ hrest
      · have hv2 : (v == "apiextensions.k8s.io/v1") = false := Bool.eq_false_iff.mpr hv
        simp [classifyLoop, hv2, isClassifyError]
    | mutHook v hk =>
      by_cases hv : (v == "admissionregistration.k8s.io/v1") = true
      · have hrest : rest.any unsupportedVersion = true := by
          simpa [unsupportedVersion, hv] using h
        simpa [classifyLoop, hv] using ih _ hrest
      · have hv2 : (v == "admissionregistration.k8s.io/v1") = false := Bool.eq_false_iff.mpr hv
        simp [classifyLoop, hv2, isClassifyError]
    | valHook v hk =>
      by_cases hv : (v == "admissionregistration.k8s.io/v1") = true
      · have hrest : rest.any unsupportedVersion = true := by
          simpa [unsupportedVersion, hv] using h
        simpa [classifyLoop, hv] using ih _ hrest
      · have hv2 : (v == "admissionregistration.k8s.io/v1") = false := Bool.eq_false_iff.mpr hv
        simp [classifyLoop, hv2, isClassifyError]
    | other kd v nm =>
      have hrest : rest.any unsupportedVersion = true := by
        simpa [unsupportedVersion] using h
      simpa [classifyLoop] using ih _ hrest

/-- C7: a manifest containing any fragment of one of the three managed kinds whose
apiVersion is not the exactly supported version for its kind makes reconciliation
fail with a configuration error, and no API call at all — in particular no create
and no update — is issued for any fragment of that manifest. -/
theorem unsupported_version_rejected (docs : List ManifestDoc) (u : providerURL)
    (caData : List Nat) (server : APIServerObjects)
    (hbad : docs.any unsupportedVersion = true) :
    isConfigError (createManifestObjects docs u caData server).1 = true
    ∧ (createManifestObjects docs u caData server).2 = [] := by
  have hc := classifyLoop_error_of_unsupported docs
    { crds := [], mutHooks := [], valHooks := [] } hbad
  unfold createManifestObjects readAndAdaptManifestObjects
  cases hcl : classifyLoop { crds := [], mutHooks := [], valHooks := [] } docs with
  | error msg => simp [isConfigError]
  | ok objs => rw [hcl] at hc; simp [isClassifyError] at hc

/-- Witness for C7: a single CRD fragment declaring apiVersion
apiextensions.k8s.io/v1beta1 is rejected as a configuration error and no API call is
issued. -/
theorem unsupported_version_rejected_witness :
    ([ManifestDoc.crd ("apiextensions.k8s.io/v1beta1") strategyCRD].any unsupportedVersion
      = true)
    ∧ isConfigError (createManifestObjects
        [ManifestDoc.crd ("apiextensions.k8s.io/v1beta1") strategyCRD]
        sampleURL [7] emptyServer).1 = true
    ∧ (createManifestObjects [ManifestDoc.crd ("apiextensions.k8s.io/v1beta1") strategyCRD]
        sampleURL [7] emptyServer).2 = [] :=
  ⟨by decide,
   unsupported_version_rejected [ManifestDoc.crd ("apiextensions.k8s.io/v1beta1") strategyCRD]
     sampleURL [7] emptyServer (by decide)⟩

theorem mapOption_none_of_mem {A B : Type} (f : A → Option B) :
    ∀ (l : List A) (a : A), a ∈ l → f a = Option.none → mapOption f l = Option.none := by
  intro l
  induction l with
  | nil => intro a ha _; simp at ha
  | cons x rest ih =>
    intro a ha hfa
    rcases List.mem_cons.mp ha with he | ht
    · subst he
      simp [mapOption, hfa]
    · unfold mapOption
      cases hfx : f x with
      | none => rfl
      | some b => rw [ih a ht hfa]

theorem adaptWebhookConfiguration_none_of_nil_service (servingBase : String)
    (caData : List Nat) (h : WebhookConfiguration)
    (hn : hasNilServiceEntry h = true) :
    adaptWebhookConfiguration servingBase caData h = Option.none := by
  unfold hasNilServiceEntry at hn
  rw [List.any_eq_true] at hn
  obtain ⟨w, hw, hsvc⟩ := hn
  have hnone : w.clientConfig.service = Option.none := Option.isNone_iff_eq_none.mp hsvc
  have : adaptWebhookEntry servingBase caData w = Option.none := by
    unfold adaptWebhookEntry
    rw [hnone]
  unfold adaptWebhookConfiguration
  rw [mapOption_none_of_mem (adaptWebhookEntry servingBase caData) h.webhooks w hw this]

/-- C10: a webhook-configuration fragment that classification accepted but whose
client config carries no in-cluster service reference (for example an already
URL-based callback) makes the adaptation step dereference the nil `Service` pointer
while reading `*ClientConfig.Service.Path`: the whole manifest adaptation ends in
the panic outcome instead of an error value. -/
theorem nil_service_panics (docs : List ManifestDoc) (u : providerURL)
    (caData : List Nat) (objs : ManifestObjects)
    (hc : classifyLoop { crds := [], mutHooks := [], valHooks := [] } docs = Except.ok objs)
    (hhook : objs.mutHooks.any hasNilServiceEntry = true
      ∨ objs.valHooks.any hasNilServiceEntry = true) :
    readAndAdaptManifestObjects docs u caData = AdaptResult.panicked := by
  unfold readAndAdaptManifestObjects
  rw [hc]
  dsimp only
  rcases hhook with hm | hv
  · rw [List.any_eq_true] at hm
    obtain ⟨h, hmem, hnil⟩ := hm
    have hmut : mapOption (adaptWebhookConfiguration (localServingURL u) caData) objs.mutHooks
        = Option.none :=
      mapOption_none_of_mem _ objs.mutHooks h hmem
        (adaptWebhookConfiguration_none_of_nil_service _ _ h hnil)
    cases hcr : mapOption (adaptCRD (localServingURL u) caData) objs.crds with
    | none => simp [hcr]
    | some crds1 => simp [hcr, hmut]
  · rw [List.any_eq_true] at hv
    obtain ⟨h, hmem, hnil⟩ := hv
    have hval : mapOption (adaptWebhookConfiguration (localServingURL u) caData) objs.valHooks
        = Option.none :=
      mapOption_none_of_mem _ objs.valHooks h hmem
        (adaptWebhookConfiguration_none_of_nil_service _ _ h hnil)
    cases hcr : mapOption (adaptCRD (localServingURL u) caData) objs.crds with
    | none => simp [hcr]
    | some crds1 =>
      cases hmu : mapOption (adaptWebhookConfiguration (localServingURL u) caData)
          objs.mutHooks with
      | none => simp [hcr, hmu]
      | some mut1 => simp [hcr, hmu, hval]

/-- Witness for C10: a single validating-webhook-configuration fragment whose only
entry is URL-based (nil service reference) makes the adaptation panic. -/
theorem nil_service_panics_witness :
    readAndAdaptManifestObjects
        [ManifestDoc.valHook ("admissionregistration.k8s.io/v1") urlOnlyHook]
        sampleURL [5]
      = AdaptResult.panicked :=
  nil_service_panics
    [ManifestDoc.valHook ("admissionregistration.k8s.io/v1") urlOnlyHook]
    sampleURL [5]
    { crds := [], mutHooks := [], valHooks := [urlOnlyHook] }
    rfl (Or.inr (by decide))

/-- C1 counterexample: a mutating-webhook-configuration fragment whose entry has the
original callback path "/mutate" is rewritten to the URL
"https://127.0.0.1:9443//mutate" — base URL, inserted "/", then the original path
which itself starts with "/" — which is not the claimed
"https://127.0.0.1:9443/mutate". CA bundle and nil service are as claimed. -/
theorem mutate_rewrite_double_slash_cex :
    readAndAdaptManifestObjects
        [ManifestDoc.mutHook ("admissionregistration.k8s.io/v1") mutateHook]
        sampleURL [5]
      = AdaptResult.ok mutateHookAdapted
    ∧ ((mutateHookAdapted.mutHooks.map
          (fun h => h.webhooks.map (fun w => w.clientConfig.url)))
        = [[Option.some ("https://127.0.0.1:9443//mutate")]])
    ∧ "https://127.0.0.1:9443//mutate" ≠ "https://127.0.0.1:9443/mutate" := by
  decide

/-- C1 amended: for every webhook entry (of either webhook-configuration kind — both
kinds run the same per-entry rewrite) whose original in-cluster service reference
carries path "/mutate", the rewritten client config has URL equal to the local
serving base immediately followed by "//mutate" (the code concatenates base, "/",
and the original path, and the original path already starts with "/"), the CA bundle
equal to the provider's own CA bytes, and a nil in-cluster service reference. -/
theorem mutate_rewrite_amended (base : String) (ca : List Nat) (w : WebhookEntry)
    (svc : ServiceReference)
    (hs : w.clientConfig.service = Option.some svc)
    (hp : svc.path = Option.some ("/mutate")) :
    adaptWebhookEntry base ca w
      = Option.some
          { name := w.name
          , clientConfig :=
            { url := Option.some (base ++ "//mutate")
            , service := Option.none
            , caBundle := ca } } := by
  unfold adaptWebhookEntry
  rw [hs]
  dsimp only
  rw [hp]
  dsimp only
  have hstr : base ++ "/" ++ "/mutate" = base ++ "//mutate" := by
    rw [String.append_assoc]
    exact congrArg (fun s => base ++ s) (by decide)
  rw [hstr]

/-- Witness for C1 (amended): the concrete "/mutate" entry of the Cluster API-style
fragment is rewritten to the double-slash URL with the CA bundle attached and the
service reference dropped. -/
theorem mutate_rewrite_amended_witness :
    adaptWebhookEntry ("https://127.0.0.1:9443") [5] mutateEntry
      = Option.some
          { name := "default.cluster.x-k8s.io"
          , clientConfig :=
            { url := Option.some ("https://127.0.0.1:9443//mutate")
            , service := Option.none
            , caBundle := [5] } } := by
  have h := mutate_rewrite_amended ("https://127.0.0.1:9443") [5] mutateEntry
    { nsName := "capi-system", name := "capi-webhook-service", path := Option.some ("/mutate") }
    rfl rfl
  simpa using h

/-- C6 counterexample: a CRD fragment that already declares a conversion strategy
("None", with a non-nil webhook sub-object) does not keep it — the adaptation
unconditionally overwrites the strategy with the webhook strategy and a client
config pointing at the local "/convert" endpoint, so the adapted CRD list differs
from the original fragment. -/
theorem crd_conversion_overwrite_cex :
    readAndAdaptManifestObjects
        [ManifestDoc.crd ("apiextensions.k8s.io/v1") strategyCRD] sampleURL [7]
      = AdaptResult.ok strategyCRDAdapted
    ∧ ((strategyCRD.spec.conversion.map (fun cv => cv.strategy)) = Option.some ("None"))
    ∧ ((strategyCRDAdapted.crds.map (fun c => c.spec.conversion.map (fun cv => cv.strategy)))
        = [Option.some ("Webhook")])
    ∧ strategyCRDAdapted.crds ≠ [strategyCRD] := by
  decide

/-- C6 amended: the adaptation injects the webhook conversion unconditionally — for
every CRD fragment on which it does not panic (its conversion is either absent, or
present with a non-nil webhook sub-object), the adapted CRD carries strategy
"Webhook", review versions v1 and v1beta1, and a client config with URL
`<base>/convert`, the provider CA bundle and a nil service, regardless of any
conversion strategy the fragment already declared; only the conversion wrapper
itself is allocated conditionally when absent. A present conversion with a nil
webhook sub-object instead makes the adaptation panic. -/
theorem crd_conversion_amended (base : String) (ca : List Nat)
    (c : CustomResourceDefinition)
    (hwh : c.spec.conversion = Option.none
      ∨ ∃ cv, c.spec.conversion = Option.some cv ∧ cv.webhook.isSome = true) :
    adaptCRD base ca c
      = Option.some
          { name := c.name
          , spec :=
            { conversion := Option.some
                { strategy := "Webhook"
                , webhook := Option.some
                    { conversionReviewVersions := ["v1", "v1beta1"]
                    , clientConfig := Option.some
                        { url := Option.some (base ++ "/convert")
                        , service := Option.none
                        , caBundle := ca } } } } } := by
  unfold adaptCRD
  rcases hwh with hn | ⟨cv, hcv, hws⟩
  · rw [hn]
  · rw [hcv]
    dsimp only
    obtain ⟨wh, hwh2⟩ := Option.isSome_iff_exists.mp hws
    rw [hwh2]

/-- Witness for C6 (amended): the concrete CRD that declared strategy "None" ends up
with the injected webhook conversion pointed at the local "/convert" endpoint. -/
theorem crd_conversion_amended_witness :
    adaptCRD ("https://127.0.0.1:9443") [7] strategyCRD
      = Option.some
          { name := "clusters.cluster.x-k8s.io"
          , spec :=
            { conversion := Option.some
                { strategy := "Webhook"
                , webhook := Option.some
                    { conversionReviewVersions := ["v1", "v1beta1"]
                    , clientConfig := Option.some
                        { url := Option.some ("https://127.0.0.1:9443/convert")
                        , service := Option.none
                        , caBundle := [7] } } } } } := by
  have h := crd_conversion_amended ("https://127.0.0.1:9443") [7] strategyCRD
    (Or.inr ⟨{ strategy := "None"
             , webhook := Option.some
                 { clientConfig := Option.none, conversionReviewVersions := [] } }, rfl, rfl⟩)
  simpa using h
